import Mathlib

/-!
Verification of the authentication state machine of the MS-Rewards-Farmer
repository (files src/login.py, src/utils.py, src/account.py), as a shallow
embedding in Lean 4.

The browser-driving code is embedded as pure functions from an explicit
environment (the UI markers, field echo read-backs, page source, and
dashboard reachability observed during one attempt) to a trace of
BrowserControl actions paired with an optional fatal error.  Each definition
mirrors one block of the Python source; line references are given in the
doc comments.
-/

namespace MSRF

/-- Mirrors `Account` from src/account.py: username, password and the
optional base32 TOTP secret (proxy and profile path are irrelevant to the
login flow and omitted). -/
structure Account where
  username : String
  password : String
  totp : Option String
  deriving DecidableEq, Repr

/-- The slice of the parsed CLI arguments that login.py reads: only
`args.visible` (whether the run is in visible, non-headless, mode). -/
structure Args where
  visible : Bool
  deriving DecidableEq, Repr

/-- The five authentication branches of `Login.executeLogin`
(src/login.py lines 55-134). -/
inductive AuthBranch where
  | passwordless
  | passwordNo2FA
  | passwordTOTP
  | passwordDeviceAuth
  | passwordManual2FA
  deriving DecidableEq, Repr

/-- One observable BrowserControl action performed by the flow.  `waitVisible`
and `waitClickable` are the blocking waits (reads); `click`, `sendKeys` and
`navigate` are the mutations; `sleep` is a plain delay; `enterBranch` marks
the entry into one of the five authentication branches (the point where the
source logs and starts the branch body); `awaitOperator` is the blocking
`input()` call awaiting out-of-band operator acknowledgement. -/
inductive Action where
  | waitVisible (selector : String) (timeout : Nat)
  | waitClickable (selector : String) (timeout : Nat)
  | click (selector : String)
  | sendKeys (selector : String) (text : String)
  | navigate (url : String)
  | sleep (seconds : Nat)
  | enterBranch (b : AuthBranch)
  | awaitOperator (prompt : String)
  deriving DecidableEq, Repr

/-- A fatal outcome of the flow: a selenium `TimeoutException` propagated as
fatal, a failed `assert`, or an explicitly raised `Exception`. -/
inductive FlowError where
  | timeoutErr (msg : String)
  | assertFail (msg : String)
  | raised (msg : String)
  deriving DecidableEq, Repr

/-- Modelled from the spec: the rewards home URL constant imported from
src/constants.py, a file of this repository that is not among the provided
sources ("navigate to the rewards home URL"). Only its identity matters to
the flow, never its contents. -/
def REWARDS_URL : String := "https://rewards.bing.com/"

/-- The CSS selector identifying the authenticated rewards portal shell,
used both by `Utils.isLoggedIn` (utils.py line 208) and by the dashboard
confirmation loop (login.py line 167). -/
def rewardsPortalSelector : String := "html[data-role-name=\"RewardsPortal\"]"

/-- The environment observed by one `executeLogin` attempt: what the
externally-controlled UI does at each probe and read-back. -/
structure Env where
  /-- read-back of the email field after typing (line 45) -/
  emailEcho : String
  /-- read-back of the password field after typing (line 72) -/
  passwordEcho : String
  /-- read-back of the one-time-code field after typing (line 119) -/
  otpEcho : String
  /-- whether the passwordless marker `displaySign` becomes visible (line 51) -/
  passwordlessMarker : Bool
  /-- whether the device-auth marker `idSpan_SAOTCAS_DescSessionID` becomes visible (line 78) -/
  deviceAuthMarker : Bool
  /-- whether the TOTP input `idTxtBx_SAOTCC_OTC` becomes visible within 1s (line 84) -/
  totpMarker : Bool
  /-- whether `kmsiForm` appears within 60s after passwordless confirmation (line 63) -/
  kmsiAppearsPasswordless : Bool
  /-- whether `kmsiForm` appears at the consent step (line 136) -/
  kmsiAppears : Bool
  /-- the page source read 5 seconds after the consent click (line 141, via
  `Utils.checkIfTextPresentAfterDelay`, utils.py line 98) -/
  pageSourceAfterConsent : String
  /-- whether the i-th wait for the dashboard marker succeeds (line 166),
  i counted from 0 -/
  dashboardOkAt : Nat → Bool
  /-- the current time-based one-time code computed by `TOTP(secret).now()`
  (line 114) from the cleaned secret; external library plus wall clock,
  hence an abstract function of the secret -/
  totpNow : String → String

/-- Python re.search on the fragment of regular expressions the program
uses: a pattern of literal characters and the `.` metacharacter (which
matches any character except a newline).  True iff the pattern matches at
this position of the subject. -/
def matchesAt : List Char → List Char → Bool
  | [], _ => true
  | _ :: _, [] => false
  | p :: ps, c :: cs => (if p = '.' then c != '\n' else p == c) && matchesAt ps cs

/-- True iff the pattern matches at some position of the subject
(re.search scans left to right). -/
def reSearchList (pat : List Char) : List Char → Bool
  | [] => matchesAt pat []
  | c :: cs => matchesAt pat (c :: cs) || reSearchList pat cs

/-- `re.search(pattern, s) is not None`, for patterns in the literal-plus-dot
fragment (the only patterns this program passes to re.search). -/
def reSearch (pat s : String) : Bool := reSearchList pat.data s.data

/-- Mirrors `Utils.checkIfTextPresentAfterDelay` (utils.py lines 96-99):
sleep the full `timeToWait` unconditionally, then perform exactly one
regular-expression search of `text` in the page source. -/
def checkIfTextPresentAfterDelay (pageSource text : String) (timeToWait : Nat) :
    List Action × Bool :=
  ([Action.sleep timeToWait], reSearch text pageSource)

/-- The default retry bound of the dashboard loop (login.py line 161). -/
def MAX_RETRY_DASHBOARD : Nat := 5

/-- The fixed delay between dashboard retries, in seconds (line 162). -/
def RETRY_DASHBOARD_DELAY : Nat := 30

/-- The message of the fatal dashboard error (line 179). -/
def dashboardFailMsg : String := "Failed to load Dashboard after maximum retries."

/-- Mirrors the dashboard confirmation loop (login.py lines 163-179):
`i` is the index of the next wait attempt, `remaining` the number of loop
iterations still allowed (`MAX_RETRY_DASHBOARD - retry_count`).  Each failed
wait is followed by a navigation to the rewards URL and the fixed delay;
when the budget is exhausted the Python while-else raises the fatal
timeout. -/
def dashboardLoop (ok : Nat → Bool) (delay : Nat) : Nat → Nat → List Action × Option FlowError
  | _, 0 => ([], some (FlowError.timeoutErr dashboardFailMsg))
  | i, remaining + 1 =>
    if ok i then
      ([Action.waitVisible rewardsPortalSelector 10], none)
    else
      let rest := dashboardLoop ok delay (i + 1) remaining
      (Action.waitVisible rewardsPortalSelector 10 ::
         Action.navigate REWARDS_URL :: Action.sleep delay :: rest.1, rest.2)

/-- The device-auth exception message (login.py lines 91-95). -/
def deviceAuthErrorMsg : String :=
  "Unfortunatly, device auth is not supported yet. Turn on passwordless login in your account settings, use TOTPs or remove 2FA altogether."

/-- The assert message of the manual-2FA configuration check (lines 126-129). -/
def manual2FAAssertMsg : String :=
  "[LOGIN] 2FA detected, provide token in accounts.json or run in visible mode to handle login."

/-- The operator prompt of the manual-2FA branch (lines 130-134). -/
def manual2FAPrompt : String :=
  "[LOGIN] 2FA detected, handle prompts and press enter when on keep me signed in page."

/-- The assert message of the account-protection configuration check (lines 147-149). -/
def protectionAssertMsg : String :=
  "Account protection detected, run in visible mode to handle login"

/-- The operator prompt of the account-protection branch (lines 150-153). -/
def protectionPrompt : String :=
  "Account protection detected, handle prompts and press enter when on rewards page"

/-- Mirrors the passwordless branch (login.py lines 55-64): re-read the
`displaySign` code, then wait up to 60s for `kmsiForm`; a timeout there is
fatal. -/
def passwordlessPath (env : Env) : List Action × Option FlowError :=
  ([Action.enterBranch AuthBranch.passwordless,
    Action.waitVisible "displaySign" 10,
    Action.waitVisible "kmsiForm" 60],
   if env.kmsiAppearsPasswordless then none
   else some (FlowError.timeoutErr "kmsiForm"))

/-- Mirrors the one-time-password sub-branch (login.py lines 109-134):
with a configured secret, compute the current code, type it, assert the
exact echo, submit; without one, assert visible mode and block on the
operator. -/
def totpStep (acct : Account) (args : Args) (env : Env) : List Action × Option FlowError :=
  match acct.totp with
  | some secret =>
    let otp := env.totpNow (secret.replace " " "")
    let tr := [Action.enterBranch AuthBranch.passwordTOTP,
               Action.waitClickable "idTxtBx_SAOTCC_OTC" 10,
               Action.sendKeys "idTxtBx_SAOTCC_OTC" otp]
    if env.otpEcho = otp then
      (tr ++ [Action.waitClickable "idSubmit_SAOTCC_Continue" 10,
              Action.click "idSubmit_SAOTCC_Continue"], none)
    else
      (tr, some (FlowError.assertFail "otpField value == otp"))
  | none =>
    if args.visible then
      ([Action.enterBranch AuthBranch.passwordManual2FA,
        Action.awaitOperator manual2FAPrompt], none)
    else
      ([Action.enterBranch AuthBranch.passwordManual2FA],
       some (FlowError.assertFail manual2FAAssertMsg))

/-- Mirrors the password path (login.py lines 66-134): type the password,
assert the exact echo, submit, probe the device-auth marker then the TOTP
marker, and dispatch: device auth raises the unsupported-path exception,
an OTC input runs `totpStep`, otherwise the account has no 2FA. -/
def passwordPath (acct : Account) (args : Args) (env : Env) : List Action × Option FlowError :=
  let tr := [Action.waitClickable "passwd" 10,
             Action.click "passwd",
             Action.sendKeys "passwd" acct.password]
  if env.passwordEcho = acct.password then
    let tr := tr ++ [Action.waitClickable "idSIButton9" 10,
                     Action.click "idSIButton9",
                     Action.waitVisible "idSpan_SAOTCAS_DescSessionID" 10,
                     Action.waitVisible "idTxtBx_SAOTCC_OTC" 1]
    if env.deviceAuthMarker then
      (tr ++ [Action.enterBranch AuthBranch.passwordDeviceAuth],
       some (FlowError.raised deviceAuthErrorMsg))
    else if env.totpMarker then
      (tr ++ (totpStep acct args env).1, (totpStep acct args env).2)
    else
      (tr ++ [Action.enterBranch AuthBranch.passwordNo2FA], none)
  else
    (tr, some (FlowError.assertFail "passwordField value == password"))

/-- Mirrors the tail of `executeLogin` after branch completion (login.py
lines 136-179): wait for `kmsiForm`, click the accept button, probe the
account-protection text 5 seconds later, require visible mode plus operator
acknowledgement if present, then run the dashboard confirmation loop with
the default budget. -/
def consentAndBeyond (args : Args) (env : Env) : List Action × Option FlowError :=
  if env.kmsiAppears then
    let tr := [Action.waitVisible "kmsiForm" 10,
               Action.waitClickable "acceptButton" 10,
               Action.click "acceptButton"]
    let probe := checkIfTextPresentAfterDelay env.pageSourceAfterConsent
      "protect your account" 5
    let tr := tr ++ probe.1
    if probe.2 then
      if args.visible then
        let dash := dashboardLoop env.dashboardOkAt RETRY_DASHBOARD_DELAY 0 MAX_RETRY_DASHBOARD
        (tr ++ [Action.awaitOperator protectionPrompt] ++ dash.1, dash.2)
      else
        (tr, some (FlowError.assertFail protectionAssertMsg))
    else
      let dash := dashboardLoop env.dashboardOkAt RETRY_DASHBOARD_DELAY 0 MAX_RETRY_DASHBOARD
      (tr ++ dash.1, dash.2)
  else
    ([Action.waitVisible "kmsiForm" 10], some (FlowError.timeoutErr "kmsiForm"))

/-- Mirrors `Login.executeLogin` (login.py lines 39-179): email entry with
exact-echo assert and submit, the passwordless probe, branch dispatch, and
the consent-plus-dashboard tail. -/
def executeLogin (acct : Account) (args : Args) (env : Env) : List Action × Option FlowError :=
  let emailTr := [Action.waitVisible "i0116" 10,
                  Action.click "i0116",
                  Action.sendKeys "i0116" acct.username]
  if env.emailEcho = acct.username then
    let tr := emailTr ++ [Action.waitClickable "idSIButton9" 10,
                          Action.click "idSIButton9",
                          Action.waitVisible "displaySign" 10]
    let b := if env.passwordlessMarker then passwordlessPath env
             else passwordPath acct args env
    match b.2 with
    | some e => (tr ++ b.1, some e)
    | none =>
      (tr ++ b.1 ++ (consentAndBeyond args env).1, (consentAndBeyond args env).2)
  else
    (emailTr, some (FlowError.assertFail "emailField value == username"))

/-- The branch-entry events of a trace, in order. -/
def branchEntries : List Action → List AuthBranch
  | [] => []
  | Action.enterBranch b :: rest => b :: branchEntries rest
  | _ :: rest => branchEntries rest

/-- BrowserControl mutations: clicks, typing and navigations (waits and
sleeps are reads/delays). -/
def isMutation : Action → Bool
  | Action.click _ => true
  | Action.sendKeys _ _ => true
  | Action.navigate _ => true
  | _ => false

/-- Input actions on the page: clicks and typing. -/
def isInputAction : Action → Bool
  | Action.click _ => true
  | Action.sendKeys _ _ => true
  | _ => false

/-! ## The session probe (utils.py lines 177-211) -/

/-- The `userInfo` object of the account-info response body
(utils.py line 186); only `isRewardsUser` is read by the probe. -/
structure BingUserInfo where
  isRewardsUser : Bool
  deriving DecidableEq, Repr

/-- The environment of one `Utils.isLoggedIn` call: the outcome of the
out-of-band HTTP account-info request (final status code after any adapter
retries, and the parsed body), and whether the rewards-portal marker
becomes visible within 10s after navigating to the sign-in URL. -/
structure ProbeEnv where
  httpStatus : Nat
  userInfo : BingUserInfo
  portalMarker : Bool
  deriving DecidableEq, Repr

/-- requests.codes.ok -/
def requests_codes_ok : Nat := 200

/-- The sign-in URL the probe falls back to (utils.py lines 202-204). -/
def SIGNIN_URL : String := "https://rewards.bing.com/Signin/"

/-- Mirrors `Utils.getBingInfo` (utils.py lines 177-186): perform the HTTP
request with the browser cookies, `assert response.status_code ==
requests.codes.ok`, and return the parsed `userInfo`.  A non-OK final
status makes the assert raise. -/
def getBingInfo (p : ProbeEnv) : Except FlowError BingUserInfo :=
  if p.httpStatus = requests_codes_ok then Except.ok p.userInfo
  else Except.error (FlowError.assertFail "response.status_code == requests.codes.ok")

/-- Mirrors `Utils.isLoggedIn` (utils.py lines 199-211): return true at once
if the HTTP probe reports a rewards user; otherwise navigate to the sign-in
URL and wait up to 10s for the portal marker, suppressing the timeout
(presence gives true, timeout gives false).  The result is the
BrowserControl trace plus either the returned boolean or the escaping
exception. -/
def isLoggedIn (p : ProbeEnv) : List Action × Except FlowError Bool :=
  match getBingInfo p with
  | Except.error e => ([], Except.error e)
  | Except.ok info =>
    if info.isRewardsUser then ([], Except.ok true)
    else
      ([Action.navigate SIGNIN_URL, Action.waitVisible rewardsPortalSelector 10],
       Except.ok p.portalMarker)

/-- Mirrors `Login.login` (login.py lines 29-37): probe the session; if not
authenticated, run `executeLogin`; finally `assert self.utils.isLoggedIn()`.
The probe environment is the state of the world during this call (both
probe invocations observe it). -/
def login (acct : Account) (args : Args) (p : ProbeEnv) (env : Env) :
    List Action × Option FlowError :=
  match isLoggedIn p with
  | (tr1, Except.error e) => (tr1, some e)
  | (tr1, Except.ok true) =>
    match isLoggedIn p with
    | (tr2, Except.error e) => (tr1 ++ tr2, some e)
    | (tr2, Except.ok b) =>
      (tr1 ++ tr2, if b then none else some (FlowError.assertFail "self.utils.isLoggedIn()"))
  | (tr1, Except.ok false) =>
    match executeLogin acct args env with
    | (tr2, some e) => (tr1 ++ tr2, some e)
    | (tr2, none) =>
      match isLoggedIn p with
      | (tr3, Except.error e) => (tr1 ++ tr2 ++ tr3, some e)
      | (tr3, Except.ok b) =>
        (tr1 ++ tr2 ++ tr3,
         if b then none else some (FlowError.assertFail "self.utils.isLoggedIn()"))

/-! ## The run-status store (utils.py lines 309-341) -/

/-- The possible returns of `manage_running_status`: Python `None`, a
boolean, or a raised error (ValueError, AssertionError or struct.error). -/
inductive StatusResult where
  | retNone
  | retBool (b : Bool)
  | err (msg : String)
  deriving DecidableEq, Repr

/-- Mirrors `manage_running_status` (utils.py lines 309-341) over an
explicit file state: `none` is a missing backing file, `some bytes` its
contents.  `set` writes the single byte of `struct.pack("?", value)`;
`get` does `struct.unpack("?", file.read(1))` — `file.read(1)` yields the
first byte when one exists and the empty buffer on an empty file, on which
unpack raises struct.error; a missing file is caught and mapped to False;
`reset` unlinks the file.  Returns the new file state and the result. -/
def manage_running_status (method : String) (value : Option Bool)
    (file : Option (List UInt8)) : Option (List UInt8) × StatusResult :=
  if method = "set" then
    match value with
    | none => (file, StatusResult.err "value must be provided when method is set")
    | some v => (some [if v then (1 : UInt8) else 0], StatusResult.retNone)
  else if method = "get" then
    match file with
    | none => (file, StatusResult.retBool false)
    | some [] =>
      (file, StatusResult.err "struct.error: unpack requires a buffer of 1 bytes")
    | some (b :: _) => (file, StatusResult.retBool (b != 0))
  else if method = "reset" then
    (none, StatusResult.retNone)
  else
    (file, StatusResult.err "method must be either get or set")

/-! ## Concrete fixtures used by witnesses and counterexamples -/

/-- A concrete account for witness instantiations. -/
def acctW : Account := ⟨"user@example.com", "hunter2", some "ABC DEF"⟩

/-- A concrete account without a TOTP secret. -/
def acctNoTotp : Account := ⟨"user@example.com", "hunter2", none⟩

/-- Visible-mode arguments. -/
def argsVisible : Args := ⟨true⟩

/-- Headless-mode arguments. -/
def argsHeadless : Args := ⟨false⟩

/-- A benign environment: echoes faithful, password path, no 2FA, consent
form present, no protection prompt, dashboard reachable at once. -/
def envBase : Env where
  emailEcho := "user@example.com"
  passwordEcho := "hunter2"
  otpEcho := "123456"
  passwordlessMarker := false
  deviceAuthMarker := false
  totpMarker := false
  kmsiAppearsPasswordless := true
  kmsiAppears := true
  pageSourceAfterConsent := ""
  dashboardOkAt := fun _ => true
  totpNow := fun _ => "123456"

/-- envBase with both the device-auth and the TOTP marker present. -/
def envDevice : Env := { envBase with deviceAuthMarker := true, totpMarker := true }

/-- envBase with a wrong email read-back. -/
def envBadEmail : Env := { envBase with emailEcho := "oops" }

/-- envBase with a wrong password read-back. -/
def envBadPwd : Env := { envBase with passwordEcho := "wrong" }

/-- envBase on the TOTP branch with a wrong one-time-code read-back. -/
def envBadOtp : Env := { envBase with totpMarker := true, otpEcho := "999999" }

/-- envBase on the manual-2FA branch (TOTP input present; used with
`acctNoTotp`). -/
def envManual : Env := { envBase with totpMarker := true }

/-- envBase with the account-protection text present after consent. -/
def envProtect : Env :=
  { envBase with pageSourceAfterConsent := "please protect your account now" }

/-- The action prefix of every attempt: email entry (with matching echo),
email submit and the passwordless probe (login.py lines 41-51). -/
def emailPhaseTrace (acct : Account) : List Action :=
  [Action.waitVisible "i0116" 10, Action.click "i0116",
   Action.sendKeys "i0116" acct.username,
   Action.waitClickable "idSIButton9" 10, Action.click "idSIButton9",
   Action.waitVisible "displaySign" 10]

/-- The password-path actions up to and including the two 2FA probes
(login.py lines 68-86), assuming a matching password echo. -/
def passwordPhaseTrace (acct : Account) : List Action :=
  [Action.waitClickable "passwd" 10, Action.click "passwd",
   Action.sendKeys "passwd" acct.password,
   Action.waitClickable "idSIButton9" 10, Action.click "idSIButton9",
   Action.waitVisible "idSpan_SAOTCAS_DescSessionID" 10,
   Action.waitVisible "idTxtBx_SAOTCC_OTC" 1]

/-! ## Supporting lemmas -/

lemma branchEntries_nil : branchEntries [] = [] := rfl

lemma branchEntries_append (a b : List Action) :
    branchEntries (a ++ b) = branchEntries a ++ branchEntries b := by
  induction a with
  | nil => rfl
  | cons x xs ih => cases x <;> simp [branchEntries, ih]

lemma branchEntries_dashboardLoop (ok : Nat → Bool) (delay : Nat) :
    ∀ r i, branchEntries (dashboardLoop ok delay i r).1 = [] := by
  intro r
  induction r with
  | zero => intro i; simp [dashboardLoop, branchEntries]
  | succ n ih =>
    intro i
    by_cases h : ok i <;> simp [dashboardLoop, h, branchEntries, ih]

lemma branchEntries_consentAndBeyond (args : Args) (env : Env) :
    branchEntries (consentAndBeyond args env).1 = [] := by
  unfold consentAndBeyond
  by_cases hk : env.kmsiAppears <;>
    by_cases hp : reSearch "protect your account" env.pageSourceAfterConsent <;>
    by_cases hv : args.visible <;>
    simp [hk, hp, hv, checkIfTextPresentAfterDelay, branchEntries,
      branchEntries_dashboardLoop]

lemma branchEntries_passwordlessPath (env : Env) :
    branchEntries (passwordlessPath env).1 = [AuthBranch.passwordless] := by
  simp [passwordlessPath, branchEntries]

lemma branchEntries_totpStep_length (acct : Account) (args : Args) (env : Env) :
    (branchEntries (totpStep acct args env).1).length = 1 := by
  unfold totpStep
  cases acct.totp with
  | none => by_cases hv : args.visible <;> simp [hv, branchEntries]
  | some secret =>
    by_cases he : env.otpEcho = env.totpNow (secret.replace " " "") <;>
      simp [he, branchEntries]

lemma branchEntries_passwordPath_length (acct : Account) (args : Args) (env : Env)
    (hP : env.passwordEcho = acct.password) :
    (branchEntries (passwordPath acct args env).1).length = 1 := by
  unfold passwordPath
  rw [if_pos hP]
  by_cases hd : env.deviceAuthMarker <;> by_cases ht : env.totpMarker <;>
    simp [hd, ht, branchEntries, branchEntries_append, branchEntries_totpStep_length]

lemma branchEntries_executeLogin (acct : Account) (args : Args) (env : Env)
    (hE : env.emailEcho = acct.username) :
    branchEntries (executeLogin acct args env).1 =
      branchEntries (if env.passwordlessMarker then passwordlessPath env
                     else passwordPath acct args env).1 := by
  unfold executeLogin
  rw [if_pos hE]
  cases h2 : (if env.passwordlessMarker then passwordlessPath env
              else passwordPath acct args env).2 <;>
    simp [h2, branchEntries_append, branchEntries, branchEntries_consentAndBeyond]

/-! ## The claims -/

/-- C1: for every login attempt whose typed fields echo faithfully (the
varying quantity being the UI markers), exactly one of the five
authentication branches {passwordless, password+no-2FA, password+TOTP,
password+device-auth, password+manual-2FA} is entered — never zero and
never more than one — regardless of which combination of the passwordless,
device-auth and TOTP-input markers is observed. -/
theorem C1_branch_exclusivity (acct : Account) (args : Args) (env : Env)
    (hE : env.emailEcho = acct.username)
    (hP : env.passwordlessMarker = false → env.passwordEcho = acct.password) :
    (branchEntries (executeLogin acct args env).1).length = 1 := by
  rw [branchEntries_executeLogin acct args env hE]
  by_cases hpl : env.passwordlessMarker
  · simp [hpl, branchEntries_passwordlessPath]
  · rw [if_neg hpl]
    exact branchEntries_passwordPath_length acct args env (hP (by simpa using hpl))

/-- Witness for C1 at a concrete input (password path, no 2FA markers). -/
theorem C1_branch_exclusivity_witness :
    (branchEntries (executeLogin acctW argsVisible envBase).1).length = 1 :=
  C1_branch_exclusivity acctW argsVisible envBase rfl (fun _ => rfl)

/-- C8: RunStatusStore round-trip — set(true) then get() is true, set(false)
then get() is false, reset() then get() is false, and get() on a missing
backing file is false without error, from any prior file state. -/
theorem C8_runstatus_roundtrip (fs : Option (List UInt8)) :
    (manage_running_status "get" none
        (manage_running_status "set" (some true) fs).1).2 = StatusResult.retBool true ∧
    (manage_running_status "get" none
        (manage_running_status "set" (some false) fs).1).2 = StatusResult.retBool false ∧
    (manage_running_status "get" none
        (manage_running_status "reset" none fs).1).2 = StatusResult.retBool false ∧
    manage_running_status "get" none none = (none, StatusResult.retBool false) :=
  ⟨rfl, rfl, rfl, rfl⟩

/-- C9: get converts only a missing backing file to false — an existing but
empty file makes the one-byte unpack raise struct.error instead of
returning a boolean, and on a file of more than one byte only the first
byte determines the result. -/
theorem C9_get_strictness (b : UInt8) (rest : List UInt8) :
    manage_running_status "get" none none = (none, StatusResult.retBool false) ∧
    manage_running_status "get" none (some []) =
      (some [], StatusResult.err "struct.error: unpack requires a buffer of 1 bytes") ∧
    manage_running_status "get" none (some (b :: rest)) =
      (some (b :: rest), StatusResult.retBool (b != 0)) ∧
    (manage_running_status "get" none (some (b :: rest))).2 =
      (manage_running_status "get" none (some [b])).2 :=
  ⟨rfl, rfl, rfl, rfl⟩

/-- C3: whenever the device-confirmation 2FA marker is detected after
password submission, the flow raises the fatal remediation error
immediately — the trace ends at the branch entry, with no further click or
typing after the password submit — and this holds for every value of the
TOTP-input marker. -/
theorem C3_deviceauth_failfast (acct : Account) (args : Args) (env : Env)
    (hE : env.emailEcho = acct.username)
    (hpl : env.passwordlessMarker = false)
    (hP : env.passwordEcho = acct.password)
    (hd : env.deviceAuthMarker = true) :
    executeLogin acct args env =
      (emailPhaseTrace acct ++ passwordPhaseTrace acct ++
        [Action.enterBranch AuthBranch.passwordDeviceAuth],
       some (FlowError.raised deviceAuthErrorMsg)) := by
  unfold executeLogin passwordPath
  simp [hE, hpl, hP, hd, emailPhaseTrace, passwordPhaseTrace]

/-- Witness for C3 at a concrete input where the TOTP marker is also
present alongside the device-auth marker. -/
theorem C3_deviceauth_failfast_witness :
    envDevice.totpMarker = true ∧
    executeLogin acctW argsHeadless envDevice =
      (emailPhaseTrace acctW ++ passwordPhaseTrace acctW ++
        [Action.enterBranch AuthBranch.passwordDeviceAuth],
       some (FlowError.raised deviceAuthErrorMsg)) :=
  ⟨rfl, C3_deviceauth_failfast acctW argsHeadless envDevice rfl rfl rfl rfl⟩

/-- C4: for every typed input (email, password, one-time code), a read-back
differing from the typed value aborts the flow with a failed assert before
the corresponding submit action, and the input is not retried: the trace
stops right after the single typing action. -/
theorem C4_echo_mismatch_aborts (acct : Account) (args : Args) (env : Env) :
    (env.emailEcho ≠ acct.username →
      executeLogin acct args env =
        ([Action.waitVisible "i0116" 10, Action.click "i0116",
          Action.sendKeys "i0116" acct.username],
         some (FlowError.assertFail "emailField value == username"))) ∧
    (env.emailEcho = acct.username → env.passwordlessMarker = false →
      env.passwordEcho ≠ acct.password →
      executeLogin acct args env =
        (emailPhaseTrace acct ++
          [Action.waitClickable "passwd" 10, Action.click "passwd",
           Action.sendKeys "passwd" acct.password],
         some (FlowError.assertFail "passwordField value == password"))) ∧
    (∀ secret, env.emailEcho = acct.username → env.passwordlessMarker = false →
      env.passwordEcho = acct.password → env.deviceAuthMarker = false →
      env.totpMarker = true → acct.totp = some secret →
      env.otpEcho ≠ env.totpNow (secret.replace " " "") →
      executeLogin acct args env =
        (emailPhaseTrace acct ++ passwordPhaseTrace acct ++
          [Action.enterBranch AuthBranch.passwordTOTP,
           Action.waitClickable "idTxtBx_SAOTCC_OTC" 10,
           Action.sendKeys "idTxtBx_SAOTCC_OTC" (env.totpNow (secret.replace " " ""))],
         some (FlowError.assertFail "otpField value == otp"))) := by
  refine ⟨?_, ?_, ?_⟩
  · intro h
    unfold executeLogin
    simp [h]
  · intro hE hpl h
    unfold executeLogin passwordPath
    simp [hE, hpl, h, emailPhaseTrace]
  · intro secret hE hpl hP hd ht hs h
    unfold executeLogin passwordPath totpStep
    simp [hE, hpl, hP, hd, ht, hs, h, emailPhaseTrace, passwordPhaseTrace]

/-- Witness for C4: the three mismatch cases at concrete inputs. -/
theorem C4_echo_mismatch_aborts_witness :
    executeLogin acctW argsVisible envBadEmail =
      ([Action.waitVisible "i0116" 10, Action.click "i0116",
        Action.sendKeys "i0116" acctW.username],
       some (FlowError.assertFail "emailField value == username")) ∧
    executeLogin acctW argsVisible envBadPwd =
      (emailPhaseTrace acctW ++
        [Action.waitClickable "passwd" 10, Action.click "passwd",
         Action.sendKeys "passwd" acctW.password],
       some (FlowError.assertFail "passwordField value == password")) ∧
    executeLogin acctW argsVisible envBadOtp =
      (emailPhaseTrace acctW ++ passwordPhaseTrace acctW ++
        [Action.enterBranch AuthBranch.passwordTOTP,
         Action.waitClickable "idTxtBx_SAOTCC_OTC" 10,
         Action.sendKeys "idTxtBx_SAOTCC_OTC"
           (envBadOtp.totpNow (("ABC DEF").replace " " ""))],
       some (FlowError.assertFail "otpField value == otp")) :=
  ⟨(C4_echo_mismatch_aborts acctW argsVisible envBadEmail).1 (by decide),
   (C4_echo_mismatch_aborts acctW argsVisible envBadPwd).2.1 rfl rfl (by decide),
   (C4_echo_mismatch_aborts acctW argsVisible envBadOtp).2.2 "ABC DEF" rfl rfl rfl rfl rfl
     rfl (by decide)⟩

/-- C6: the manual-2FA branch (TOTP input present, no configured secret) and
the account-protection interstitial both fail fast with the explicit
configuration assert when the run is not visible, performing no operator
wait; in visible mode each blocks on the operator acknowledgement before
the flow continues. -/
theorem C6_manual_intervention_gating (acct : Account) (args : Args) (env : Env) :
    (env.emailEcho = acct.username → env.passwordlessMarker = false →
      env.passwordEcho = acct.password → env.deviceAuthMarker = false →
      env.totpMarker = true → acct.totp = none → args.visible = false →
      executeLogin acct args env =
        (emailPhaseTrace acct ++ passwordPhaseTrace acct ++
          [Action.enterBranch AuthBranch.passwordManual2FA],
         some (FlowError.assertFail manual2FAAssertMsg))) ∧
    (env.emailEcho = acct.username → env.passwordlessMarker = false →
      env.passwordEcho = acct.password → env.deviceAuthMarker = false →
      env.totpMarker = true → acct.totp = none → args.visible = true →
      executeLogin acct args env =
        (emailPhaseTrace acct ++ passwordPhaseTrace acct ++
          [Action.enterBranch AuthBranch.passwordManual2FA,
           Action.awaitOperator manual2FAPrompt] ++ (consentAndBeyond args env).1,
         (consentAndBeyond args env).2)) ∧
    (env.kmsiAppears = true →
      reSearch "protect your account" env.pageSourceAfterConsent = true →
      args.visible = false →
      consentAndBeyond args env =
        ([Action.waitVisible "kmsiForm" 10, Action.waitClickable "acceptButton" 10,
          Action.click "acceptButton", Action.sleep 5],
         some (FlowError.assertFail protectionAssertMsg))) ∧
    (env.kmsiAppears = true →
      reSearch "protect your account" env.pageSourceAfterConsent = true →
      args.visible = true →
      consentAndBeyond args env =
        ([Action.waitVisible "kmsiForm" 10, Action.waitClickable "acceptButton" 10,
          Action.click "acceptButton", Action.sleep 5,
          Action.awaitOperator protectionPrompt] ++
           (dashboardLoop env.dashboardOkAt RETRY_DASHBOARD_DELAY 0 MAX_RETRY_DASHBOARD).1,
         (dashboardLoop env.dashboardOkAt RETRY_DASHBOARD_DELAY 0 MAX_RETRY_DASHBOARD).2)) := by
  refine ⟨?_, ?_, ?_, ?_⟩
  · intro hE hpl hP hd ht hs hv
    unfold executeLogin passwordPath totpStep
    simp [hE, hpl, hP, hd, ht, hs, hv, emailPhaseTrace, passwordPhaseTrace]
  · intro hE hpl hP hd ht hs hv
    unfold executeLogin passwordPath totpStep
    simp [hE, hpl, hP, hd, ht, hs, hv, emailPhaseTrace, passwordPhaseTrace]
  · intro hk hp hv
    unfold consentAndBeyond
    simp [hk, hp, hv, checkIfTextPresentAfterDelay]
  · intro hk hp hv
    unfold consentAndBeyond
    simp [hk, hp, hv, checkIfTextPresentAfterDelay]

/-- Witness for C6: the four gated cases at concrete inputs. -/
theorem C6_manual_intervention_gating_witness :
    executeLogin acctNoTotp argsHeadless envManual =
      (emailPhaseTrace acctNoTotp ++ passwordPhaseTrace acctNoTotp ++
        [Action.enterBranch AuthBranch.passwordManual2FA],
       some (FlowError.assertFail manual2FAAssertMsg)) ∧
    executeLogin acctNoTotp argsVisible envManual =
      (emailPhaseTrace acctNoTotp ++ passwordPhaseTrace acctNoTotp ++
        [Action.enterBranch AuthBranch.passwordManual2FA,
         Action.awaitOperator manual2FAPrompt] ++
          (consentAndBeyond argsVisible envManual).1,
       (consentAndBeyond argsVisible envManual).2) ∧
    consentAndBeyond argsHeadless envProtect =
      ([Action.waitVisible "kmsiForm" 10, Action.waitClickable "acceptButton" 10,
        Action.click "acceptButton", Action.sleep 5],
       some (FlowError.assertFail protectionAssertMsg)) ∧
    consentAndBeyond argsVisible envProtect =
      ([Action.waitVisible "kmsiForm" 10, Action.waitClickable "acceptButton" 10,
        Action.click "acceptButton", Action.sleep 5,
        Action.awaitOperator protectionPrompt] ++
         (dashboardLoop envProtect.dashboardOkAt RETRY_DASHBOARD_DELAY 0
           MAX_RETRY_DASHBOARD).1,
       (dashboardLoop envProtect.dashboardOkAt RETRY_DASHBOARD_DELAY 0
         MAX_RETRY_DASHBOARD).2) :=
  ⟨(C6_manual_intervention_gating acctNoTotp argsHeadless envManual).1
     rfl rfl rfl rfl rfl rfl rfl,
   (C6_manual_intervention_gating acctNoTotp argsVisible envManual).2.1
     rfl rfl rfl rfl rfl rfl rfl,
   (C6_manual_intervention_gating acctNoTotp argsHeadless envProtect).2.2.1
     rfl (by decide) rfl,
   (C6_manual_intervention_gating acctNoTotp argsVisible envProtect).2.2.2
     rfl (by decide) rfl⟩

lemma dashboardLoop_permfail (ok : Nat → Bool) (delay : Nat)
    (h : ∀ i, ok i = false) : ∀ r i,
    dashboardLoop ok delay i r =
      ((List.replicate r [Action.waitVisible rewardsPortalSelector 10,
          Action.navigate REWARDS_URL, Action.sleep delay]).flatten,
       some (FlowError.timeoutErr dashboardFailMsg)) := by
  intro r
  induction r with
  | zero => intro i; simp [dashboardLoop]
  | succ n ih =>
    intro i
    simp [dashboardLoop, h i, ih (i + 1), List.replicate_succ]

lemma dashboardLoop_firstSuccess (ok : Nat → Bool) (delay : Nat) : ∀ r i k, k < r →
    (∀ j, j < k → ok (i + j) = false) → ok (i + k) = true →
    dashboardLoop ok delay i r =
      ((List.replicate k [Action.waitVisible rewardsPortalSelector 10,
          Action.navigate REWARDS_URL, Action.sleep delay]).flatten ++
        [Action.waitVisible rewardsPortalSelector 10], none) := by
  intro r
  induction r with
  | zero => intro i k hk; omega
  | succ n ih =>
    intro i k hk hbefore hnow
    cases k with
    | zero =>
      have h0 : ok i = true := by simpa using hnow
      simp [dashboardLoop, h0]
    | succ m =>
      have h0 : ok i = false := by simpa using hbefore 0 (Nat.succ_pos m)
      have hrec := ih (i + 1) m (Nat.lt_of_succ_lt_succ hk)
        (fun j hj => by
          have := hbefore (j + 1) (Nat.succ_lt_succ hj)
          simpa [Nat.add_assoc, Nat.add_comm 1 j] using this)
        (by simpa [Nat.add_assoc, Nat.add_comm 1 m] using hnow)
      simp [dashboardLoop, h0, hrec, List.replicate_succ]

/-- C5: with a retry budget of N attempts, a permanently-failing dashboard
check makes the loop perform exactly N re-navigations to the rewards home
URL, each followed by the configured delay, and then raise the fatal
dashboard-unreachable timeout — never more than N; a first success at
attempt k exits the loop with no raise and no navigation after it.  The
defaults wired into `executeLogin` are 5 attempts and 30 seconds. -/
theorem C5_dashboard_retry_bound (ok : Nat → Bool) (delay N : Nat) :
    ((∀ i, ok i = false) →
      dashboardLoop ok delay 0 N =
        ((List.replicate N [Action.waitVisible rewardsPortalSelector 10,
            Action.navigate REWARDS_URL, Action.sleep delay]).flatten,
         some (FlowError.timeoutErr dashboardFailMsg))) ∧
    (∀ k, k < N → (∀ j, j < k → ok j = false) → ok k = true →
      dashboardLoop ok delay 0 N =
        ((List.replicate k [Action.waitVisible rewardsPortalSelector 10,
            Action.navigate REWARDS_URL, Action.sleep delay]).flatten ++
          [Action.waitVisible rewardsPortalSelector 10], none)) ∧
    MAX_RETRY_DASHBOARD = 5 ∧ RETRY_DASHBOARD_DELAY = 30 := by
  refine ⟨fun h => dashboardLoop_permfail ok delay h N 0, ?_, rfl, rfl⟩
  intro k hk hbefore hnow
  exact dashboardLoop_firstSuccess ok delay N 0 k hk
    (fun j hj => by simpa using hbefore j hj) (by simpa using hnow)

/-- Witness for C5: the default budget against a permanently-failing check
(exactly 5 navigations then the fatal error) and against a check that first
succeeds at attempt 2 (2 navigations, no error). -/
theorem C5_dashboard_retry_bound_witness :
    dashboardLoop (fun _ => false) 30 0 5 =
      ((List.replicate 5 [Action.waitVisible rewardsPortalSelector 10,
          Action.navigate REWARDS_URL, Action.sleep 30]).flatten,
       some (FlowError.timeoutErr dashboardFailMsg)) ∧
    dashboardLoop (fun i => i == 2) 30 0 5 =
      ((List.replicate 2 [Action.waitVisible rewardsPortalSelector 10,
          Action.navigate REWARDS_URL, Action.sleep 30]).flatten ++
        [Action.waitVisible rewardsPortalSelector 10], none) :=
  ⟨(C5_dashboard_retry_bound (fun _ => false) 30 5).1 (fun _ => rfl),
   (C5_dashboard_retry_bound (fun i => i == 2) 30 5).2.1 2 (by decide) (by decide)
     (by decide)⟩

lemma dashboardLoop_count_sleep5 (ok : Nat → Bool) : ∀ r i,
    ((dashboardLoop ok 30 i r).1.count (Action.sleep 5)) = 0 := by
  intro r
  induction r with
  | zero => intro i; simp [dashboardLoop]
  | succ n ih =>
    intro i
    by_cases h : ok i <;>
      simp [dashboardLoop, h, ih (i + 1), List.count_cons, rewardsPortalSelector]

/-- C10: `checkIfTextPresentAfterDelay` sleeps the full `timeToWait`
unconditionally and performs exactly one search, whose outcome is the
regular-expression search of the text in the page source — a pattern, not a
literal substring (the pattern "a.c" is found in "xabcy" though it is not a
substring of it); hence the account-protection probe after the consent
click is one `sleep 5` immediately after the click followed by a single
check, never a polling wait. -/
theorem C10_text_probe_single_check (pageSource text : String) (t : Nat)
    (args : Args) (env : Env) :
    checkIfTextPresentAfterDelay pageSource text t =
      ([Action.sleep t], reSearch text pageSource) ∧
    (reSearch "a.c" "xabcy" = true ∧ ¬ "a.c".data <:+: "xabcy".data) ∧
    (env.kmsiAppears = true →
      (consentAndBeyond args env).1.take 4 =
        [Action.waitVisible "kmsiForm" 10, Action.waitClickable "acceptButton" 10,
         Action.click "acceptButton", Action.sleep 5] ∧
      (consentAndBeyond args env).1.count (Action.sleep 5) = 1) := by
  refine ⟨rfl, ⟨by decide, by decide⟩, fun hk => ?_⟩
  unfold consentAndBeyond
  by_cases hp : reSearch "protect your account" env.pageSourceAfterConsent <;>
    by_cases hv : args.visible <;>
    simp [hk, hp, hv, checkIfTextPresentAfterDelay, List.count_cons,
      RETRY_DASHBOARD_DELAY, dashboardLoop_count_sleep5, protectionPrompt]

/-- Witness for C10 at a concrete input with the consent form present. -/
theorem C10_text_probe_single_check_witness :
    checkIfTextPresentAfterDelay "abc" "b" 7 = ([Action.sleep 7], true) ∧
    (consentAndBeyond argsVisible envBase).1.count (Action.sleep 5) = 1 :=
  ⟨by
    have h := (C10_text_probe_single_check "abc" "b" 7 argsVisible envBase).1
    simpa using h,
   ((C10_text_probe_single_check "abc" "b" 7 argsVisible envBase).2.2 rfl).2⟩

lemma isLoggedIn_no_input (p : ProbeEnv) :
    (isLoggedIn p).1.any isInputAction = false := by
  unfold isLoggedIn getBingInfo
  by_cases hs : p.httpStatus = requests_codes_ok <;>
    by_cases hr : p.userInfo.isRewardsUser <;> simp [hs, hr, isInputAction]

/-- C2 counterexample: with the fast HTTP probe negative but the UI
fallback positive, `isAuthenticated()` is true and yet `login()` performs
navigations (the probe navigates to the sign-in URL, and the final
re-assertion navigates again), so the claimed "zero BrowserControl
mutations (no navigation...)" fails. -/
theorem C2_counterexample :
    (isLoggedIn ⟨200, ⟨false⟩, true⟩).2 = Except.ok true ∧
    (login acctW argsVisible ⟨200, ⟨false⟩, true⟩ envBase).1.any isMutation = true :=
  ⟨rfl, rfl⟩

/-- C2 (amended): when `isAuthenticated()` is already true, `login` never
executes the sign-in flow and performs no clicks or typing — its whole
trace is the two probe invocations — and when authentication is detected by
the fast HTTP path the trace is empty (zero BrowserControl mutations);
navigations occur only inside the probe itself, on its UI-fallback path. -/
theorem C2_login_idempotence_amended (acct : Account) (args : Args) (p : ProbeEnv)
    (env : Env) (h : (isLoggedIn p).2 = Except.ok true) :
    (login acct args p env).1 = (isLoggedIn p).1 ++ (isLoggedIn p).1 ∧
    (login acct args p env).2 = none ∧
    (login acct args p env).1.any isInputAction = false ∧
    (p.httpStatus = 200 → p.userInfo.isRewardsUser = true →
      (login acct args p env).1 = []) := by
  obtain ⟨tr, hr⟩ : ∃ tr, isLoggedIn p = (tr, Except.ok true) :=
    ⟨(isLoggedIn p).1, by rw [← h]⟩
  have h1 : (isLoggedIn p).1 = tr := by rw [hr]
  have htr : (login acct args p env) = (tr ++ tr, none) := by
    simp [login, hr]
  refine ⟨by rw [htr, h1], by rw [htr], ?_, ?_⟩
  · rw [htr]
    have := isLoggedIn_no_input p
    rw [h1] at this
    simp [List.any_append, this]
  · intro h200 hrw
    have hfast : isLoggedIn p = ([], Except.ok true) := by
      simp [isLoggedIn, getBingInfo, h200, hrw, requests_codes_ok]
    have : tr = [] := by
      rw [hfast] at hr
      exact congrArg Prod.fst hr.symm
    rw [htr, this]
    rfl

/-- Witness for C2 (amended): the fast HTTP path with an empty trace. -/
theorem C2_login_idempotence_amended_witness :
    (login acctW argsVisible ⟨200, ⟨true⟩, false⟩ envBase).1 = [] :=
  (C2_login_idempotence_amended acctW argsVisible ⟨200, ⟨true⟩, false⟩ envBase
    rfl).2.2.2 rfl rfl

/-- C7 counterexample: when the out-of-band HTTP account-info request
completes with a non-OK status (here 500 after the adapter retries), the
status-code assert in `getBingInfo` raises and the exception escapes
`isLoggedIn`, refuting "never lets an exception escape ... for every
outcome of the HTTP request". -/
theorem C7_counterexample :
    (isLoggedIn ⟨500, ⟨false⟩, false⟩).2 =
      Except.error (FlowError.assertFail "response.status_code == requests.codes.ok") :=
  rfl

/-- C7 (amended): whenever the HTTP account-info request completes with an
OK status, `isLoggedIn` returns a boolean for every outcome of the UI
fallback — true at once for a rewards user, otherwise exactly the portal
marker observation, so a timeout of the UI wait yields false rather than a
failure; but a non-OK HTTP status raises an assertion that escapes. -/
theorem C7_probe_total_amended (p : ProbeEnv)
    (h : p.httpStatus = requests_codes_ok) :
    (∃ b, (isLoggedIn p).2 = Except.ok b) ∧
    (p.userInfo.isRewardsUser = true → (isLoggedIn p).2 = Except.ok true) ∧
    (p.userInfo.isRewardsUser = false →
      (isLoggedIn p).2 = Except.ok p.portalMarker) := by
  have hmain : (isLoggedIn p).2 =
      if p.userInfo.isRewardsUser then Except.ok true
      else Except.ok p.portalMarker := by
    unfold isLoggedIn getBingInfo
    by_cases hr : p.userInfo.isRewardsUser <;> simp [h, hr]
  by_cases hr : p.userInfo.isRewardsUser <;>
    simp [hmain, hr]

/-- Witness for C7 (amended): OK status, non-rewards user, portal marker
absent — the probe returns false. -/
theorem C7_probe_total_amended_witness :
    (isLoggedIn ⟨200, ⟨false⟩, false⟩).2 = Except.ok false :=
  (C7_probe_total_amended ⟨200, ⟨false⟩, false⟩ rfl).2.2 rfl

end MSRF
